import Mathlib

/-!
Verification development for the createrepo_c indexing engine
(src/createrepo_c.c) and its Python XML-parse bindings
(src/python/xml_parser-py.c).

The definitions below are a shallow embedding of the C sources: pure
decision logic becomes Lean functions, the straight-line orchestration of
main() becomes an explicit event trace, and external effects (stat(),
package_from_file(), the underlying XML parsers) are passed in as explicit
outcome values.
-/

set_option maxRecDepth 4096
set_option linter.unusedVariables false
set_option linter.unnecessarySeqFocus false

namespace CreaterepoC

/-- Modelled from the spec: the dependency spec entries of a PackageRecord
(name, flag, epoch, version, release, pre-marker); the Package struct itself
lives in package.h, which is not among the given sources. -/
structure DepEntry where
  name : String
  flags : String
  epoch : String
  version : String
  release : String
  pre : Bool
deriving DecidableEq

/-- Modelled from the spec: file-list entry type, type in (file, dir, ghost). -/
inductive FileType where
  | file
  | dir
  | ghost
deriving DecidableEq

/-- Modelled from the spec: one file-list entry of a PackageRecord. -/
structure FileEntry where
  path : String
  type : FileType
deriving DecidableEq

/-- Modelled from the spec: one changelog entry of a PackageRecord. -/
structure ChangelogEntry where
  author : String
  date : Int
  changelog : String
deriving DecidableEq

/-- Modelled from the spec: the PackageRecord (the C \x7bPackage\x7d struct of
package.h, which is not among the given sources).  Identity fields,
integrity fields, relational fields, content fields and location fields,
as listed in the spec's data model. -/
structure Package where
  name : String
  epoch : String
  version : String
  release : String
  arch : String
  pkgId : String
  checksum_type : String
  size_package : Int
  time_file : Int
  time_build : Int
  provides : List DepEntry
  requires : List DepEntry
  conflicts : List DepEntry
  obsoletes : List DepEntry
  suggests : List DepEntry
  enhances : List DepEntry
  recommends : List DepEntry
  supplements : List DepEntry
  files : List FileEntry
  changelogs : List ChangelogEntry
  location_href : String
  location_base : Option String
deriving DecidableEq

/-- The old-metadata hashtable (GHashTable keyed by filename), embedded as an
association list where a later binding for the same key shadows an earlier
one. -/
def Metadata : Type := List (String × Package)

/-- g_hash_table_lookup on the filename-keyed table: the value of the last
binding inserted for the key. -/
def htLookup (m : Metadata) (k : String) : Option Package :=
  (List.find? (fun p => p.1 = k) (List.reverse m)).map (fun p => p.2)

/-- Result of the stat() call in dumper_thread (fields st_mtime and st_size,
the only two the code reads). -/
structure StatInfo where
  st_mtime : Int
  st_size : Int
deriving DecidableEq

/-- The fields of struct UserData that drive the per-task decision logic of
dumper_thread (createrepo_c.c lines 45-65). -/
structure UserData where
  skip_stat : Bool
  checksum_type_str : String
  old_metadata : Option Metadata
  location_base : Option String
  repodir_name_len : Nat

/-- struct PoolTask (createrepo_c.c lines 68-72). -/
structure PoolTask where
  full_path : String
  filename : String
  path : String
deriving DecidableEq

/-- Outcomes of the two external calls a worker can make for one task:
stat(task->full_path) and package_from_file(...).  none models failure. -/
structure FsOracle where
  statResult : Option StatInfo
  parseResult : Option Package

/-- What dumper_thread decides to do with one task before the write phase. -/
inductive DumperAction where
  | dropStat
  | useCached
  | parseFresh
deriving DecidableEq

/-- The decision logic of dumper_thread (createrepo_c.c lines 133-183):
when old metadata is loaded and skip_stat is off, stat() runs first and a
stat failure drops the task; then the filename is looked up in the old
metadata; a hit is used unconditionally under skip_stat, and otherwise only
when st_mtime, st_size and the configured checksum-type string all match the
cached record; in every other case package_from_file is invoked. -/
def dumper_decision (u : UserData) (t : PoolTask) (fs : FsOracle) : DumperAction :=
  match u.old_metadata with
  | none => DumperAction.parseFresh
  | some meta =>
    if u.skip_stat = false ∧ fs.statResult = none then
      DumperAction.dropStat
    else
      match htLookup meta t.filename with
      | none => DumperAction.parseFresh
      | some md =>
        if u.skip_stat then
          DumperAction.useCached
        else
          match fs.statResult with
          | none => DumperAction.dropStat
          | some s =>
            if s.st_mtime = md.time_file ∧ s.st_size = md.size_package ∧
               u.checksum_type_str = md.checksum_type then
              DumperAction.useCached
            else
              DumperAction.parseFresh

/-- On a used cache hit, dumper_thread overwrites exactly location_href and
location_base of the cached record (createrepo_c.c lines 169-173). -/
def cacheHitRecord (md : Package) (href : String) (base : Option String) : Package :=
  { md with location_href := href, location_base := base }

/-- Whether dumper_thread reaches the write phase for this task, i.e. appends
one package fragment to each of the three sinks.  A task is dropped (writes
nothing) when stat() fails or when package_from_file returns NULL
(createrepo_c.c lines 136-139 and 180-183). -/
def dumper_thread (u : UserData) (t : PoolTask) (fs : FsOracle) : Bool :=
  match dumper_decision u t fs with
  | DumperAction.dropStat => false
  | DumperAction.useCached => true
  | DumperAction.parseFresh => fs.parseResult.isSome

/-! ### The worker pool run (C1): preamble count versus fragments written -/

/-- package_count as written into the three XML preambles (createrepo_c.c
lines 541-655, 663-668): it is incremented once per task pushed into the
pool, before any worker may run, and the preamble printf uses it. -/
def package_count (tasks : List (PoolTask × FsOracle)) : Nat :=
  tasks.length

/-- Per-sink counts of package fragments appended. -/
structure SinkCounts where
  pri : Nat
  fil : Nat
  oth : Nat
deriving DecidableEq

instance : Add SinkCounts :=
  ⟨fun a b => ⟨a.pri + b.pri, a.fil + b.fil, a.oth + b.oth⟩⟩

/-- Fragments one task appends: one to each sink when the task reaches the
write phase (createrepo_c.c lines 190-212), none when it is dropped. -/
def taskSinkAppends (u : UserData) (t : PoolTask) (fs : FsOracle) : SinkCounts :=
  if dumper_thread u t fs then ⟨1, 1, 1⟩ else ⟨0, 0, 0⟩

/-- Total package elements written into each of the three documents by a
completed pool run over the given tasks. -/
def runPool (u : UserData) : List (PoolTask × FsOracle) → SinkCounts
  | [] => ⟨0, 0, 0⟩
  | p :: rest => taskSinkAppends u p.1 p.2 + runPool u rest

/-- Number of tasks that reach the write phase. -/
def writtenCount (u : UserData) (tasks : List (PoolTask × FsOracle)) : Nat :=
  (tasks.filter (fun p => dumper_thread u p.1 p.2)).length

/-- Number of tasks dropped (stat failure or unreadable package). -/
def droppedCount (u : UserData) (tasks : List (PoolTask × FsOracle)) : Nat :=
  (tasks.filter (fun p => !(dumper_thread u p.1 p.2))).length

/-! ### The sink locks (C3): the write phase of dumper_thread as a trace -/

inductive Lock where
  | pri
  | fil
  | oth
deriving DecidableEq

inductive SinkEvent where
  | lock (l : Lock)
  | writeXml (l : Lock)
  | dbInsert (l : Lock)
  | unlock (l : Lock)
deriving DecidableEq

/-- The write phase of dumper_thread (createrepo_c.c lines 190-212), as the
exact sequence of lock operations and guarded writes it performs; the
dbInsert events are present exactly when the sqlite statements are non-NULL
(no --no-database). -/
def writePhase (withDb : Bool) : List SinkEvent :=
  [SinkEvent.lock Lock.pri, SinkEvent.writeXml Lock.pri] ++
  (if withDb then [SinkEvent.dbInsert Lock.pri] else []) ++
  [SinkEvent.unlock Lock.pri] ++
  [SinkEvent.lock Lock.fil, SinkEvent.writeXml Lock.fil] ++
  (if withDb then [SinkEvent.dbInsert Lock.fil] else []) ++
  [SinkEvent.unlock Lock.fil] ++
  [SinkEvent.lock Lock.oth, SinkEvent.writeXml Lock.oth] ++
  (if withDb then [SinkEvent.dbInsert Lock.oth] else []) ++
  [SinkEvent.unlock Lock.oth]

/-- The multiset of locks held after a sequence of sink events. -/
def heldAfter (events : List SinkEvent) : List Lock :=
  events.foldl
    (fun held e =>
      match e with
      | SinkEvent.lock l => l :: held
      | SinkEvent.unlock l => held.erase l
      | _ => held)
    []

/-- The sequence of lock acquisitions in a trace. -/
def acquisitionOrder (events : List SinkEvent) : List Lock :=
  events.filterMap
    (fun e => match e with | SinkEvent.lock l => some l | _ => none)

/-- Checks, simulating the held-lock set, that every lock acquisition in the
trace happens while no lock at all is held: that is, each lock is released
before the next one is acquired. -/
def lockAcqWhenFree : List Lock → List SinkEvent → Bool
  | _, [] => true
  | held, SinkEvent.lock l :: rest => held.isEmpty && lockAcqWhenFree (l :: held) rest
  | held, SinkEvent.unlock l :: rest => lockAcqWhenFree (held.erase l) rest
  | held, _ :: rest => lockAcqWhenFree held rest

/-! ### The orchestration of main ( C7, C8, C4 ): event trace and exits -/

inductive MainEvent where
  | mkdirStaging
  | setSignalCell
  | installSigHandler
  | copyGroupfile
  | loadOldMetadata
  | openSinks
  | openDatabases
  | createPool
  | walkAndQueue
  | writePreambles
  | startPool
  | drainPool
  | closeSinks
  | closeDatabases
  | moveOldOut
  | renameStaging
  | fillRepomdRecords
  | writeRepomd
  | clearSignalCell
deriving DecidableEq

/-- The order in which main() performs its steps (createrepo_c.c lines
330-906): staging mkdir, signal-cell store (line 345), handler install,
groupfile copy, old-metadata load, sink open (449-474), database open
(489-500), pool creation (534), the walk that queues tasks (541-653),
preamble write (663-668), raising the worker count (674), drain (680),
closes, the move of old artifacts, the staging rename (747), repomd record
fill, repomd.xml write (876-882) and the signal-cell clear (906). -/
def mainTrace : List MainEvent :=
  [MainEvent.mkdirStaging, MainEvent.setSignalCell, MainEvent.installSigHandler,
   MainEvent.copyGroupfile, MainEvent.loadOldMetadata, MainEvent.openSinks,
   MainEvent.openDatabases, MainEvent.createPool, MainEvent.walkAndQueue,
   MainEvent.writePreambles, MainEvent.startPool, MainEvent.drainPool,
   MainEvent.closeSinks, MainEvent.closeDatabases, MainEvent.moveOldOut,
   MainEvent.renameStaging, MainEvent.fillRepomdRecords, MainEvent.writeRepomd,
   MainEvent.clearSignalCell]

/-- The third argument of g_thread_pool_new (createrepo_c.c line 534): the
pool is created with a maximum of zero concurrent threads. -/
def poolCreationMaxThreads : Nat := 0

/-- The pool's maximum thread count after a prefix of main's steps: it stays
at its creation value until g_thread_pool_set_max_threads raises it to the
configured worker count W (createrepo_c.c line 674). -/
def maxThreadsAfter (W : Nat) (events : List MainEvent) : Nat :=
  if MainEvent.startPool ∈ events then W else poolCreationMaxThreads

/-- The value of the process-wide tmp_repodata_path cell after a prefix of
main's steps: NULL until line 345 stores the staging path, then that path
until line 906 stores NULL again. -/
def cellValueAfter (tmp_out_repo : String) (events : List MainEvent) : Option String :=
  if MainEvent.setSignalCell ∈ events ∧ ¬ (MainEvent.clearSignalCell ∈ events) then
    some tmp_out_repo
  else
    none

/-- sigint_catcher (createrepo_c.c lines 80-88): removes the directory held
in the cell when it is non-NULL, then exits 1.  Returns the list of paths it
attempts to remove, paired with the exit status. -/
def sigint_catcher (cell : Option String) : List String × Nat :=
  (match cell with
   | some p => [p]
   | none => [], 1)

/-- Outcomes of the fallible finalize-phase steps of main: the staging
rename (line 747), the fill_missing_data checksum computations (770-772),
the database compressions (822-824), xml_repomd generation (867) and the
fopen of repomd.xml (876). -/
structure FinalizeEnv where
  renameOk : Bool
  checksumOk : Bool
  compressOk : Bool
  repomdXmlOk : Bool
  repomdOpenOk : Bool
deriving DecidableEq

/-- The exit status main() produces from the finalize phase: a failed
staging rename only logs a critical message and execution continues (lines
747-751); the return values of fill_missing_data and compress_file are never
inspected; the only finalize failure that returns 1 is the repomd.xml step,
when xml_repomd yielded NULL or the fopen failed (lines 876-879); otherwise
main falls through to return 0 (line 922). -/
def mainFinalizeExit (e : FinalizeEnv) : Nat :=
  if e.repomdOpenOk = false ∨ e.repomdXmlOk = false then 1 else 0

/-! ### The recursive walk (C9): per-entry dispatch -/

/-- One directory entry as the walk observes it.  isRegular and isDir are
the results of g_file_test with G_FILE_TEST_IS_REGULAR and
G_FILE_TEST_IS_DIR, both of which follow symbolic links; isSymlink is the
result with G_FILE_TEST_IS_SYMLINK. -/
structure DirEntry where
  name : String
  isRegular : Bool
  isDir : Bool
  isSymlink : Bool
deriving DecidableEq

inductive WalkAction where
  | enqueueDir
  | skipEntry
  | emitTask
deriving DecidableEq

/-- g_str_has_suffix: whether str ends with the given suffix. -/
def g_str_has_suffix (str sfx : String) : Bool :=
  List.isSuffixOf sfx.data str.data

/-- The per-entry dispatch of the recursive walk (createrepo_c.c lines
565-604): a name without the .rpm suffix is either enqueued for traversal
(when it tests as a non-regular directory) or skipped; only past the suffix
check does --skip-symlinks skip symlinks; finally the exclude masks are
applied (their verdict is the allowed argument, the result of
allowed_file). -/
def walkStep (skip_symlinks : Bool) (allowed : Bool) (e : DirEntry) : WalkAction :=
  if ¬ (g_str_has_suffix e.name ".rpm") then
    if e.isRegular = false ∧ e.isDir = true then
      WalkAction.enqueueDir
    else
      WalkAction.skipEntry
  else if skip_symlinks ∧ e.isSymlink then
    WalkAction.skipEntry
  else if allowed then
    WalkAction.emitTask
  else
    WalkAction.skipEntry

/-! ### Loading old metadata (C6): sources and merge order -/

/-- The list of directories main() loads old metadata from, in load order
(createrepo_c.c lines 371-414): the output directory only when --outputdir
was given, then the input directory, then every --update-md-path in list
order. -/
def oldMetadataSources (outputdir : Option String) (in_dir : String)
    (update_md_paths : List String) : List String :=
  (match outputdir with
   | some od => [od]
   | none => []) ++ in_dir :: update_md_paths

/-- Modelled from the spec: locate_and_load_xml_metadata (its implementation
lives in locate_metadata.c / load_metadata.c, which are not among the given
sources) inserts every record of one repository into the hashtable keyed by
package filename, a later insert for the same filename overwriting the
earlier one ("last writer wins during load"). -/
def locate_and_load_xml_metadata (ht : Metadata) (loaded : Metadata) : Metadata :=
  List.append ht loaded

/-- The old-metadata table after loading every source in order into an
initially empty table. -/
def loadAllSources (sources : List Metadata) : Metadata :=
  sources.foldl locate_and_load_xml_metadata ([] : List (String × Package))

/-! ### Python XML-parse entry points (C10) -/

/-- The aspects of a Python object the validation code of xml_parser-py.c
distinguishes: PyCallable_Check succeeds, the object is Py_None, or
neither. -/
inductive PyVal where
  | callable
  | noneObj
  | otherObj
deriving DecidableEq

def pyCallableCheck : PyVal → Bool
  | PyVal.callable => true
  | _ => false

/-- A raised Python exception, by kind and message. -/
inductive PyExc where
  | typeErr (msg : String)
  | valueErr (msg : String)
deriving DecidableEq

/-- What one py_xml_parse_* call produced: the returned value (error or
None) and whether the underlying C parser was invoked. -/
structure PyParseOutcome where
  result : Except PyExc Unit
  parserInvoked : Bool

/-- Shared validation sequence of py_xml_parse_primary / _filelists /
_other (xml_parser-py.c lines 156-174, 235-253, 313-331): each callback must
be callable or None, in the order newpkgcb, pkgcb, warningcb, raising
TypeError at the first violation; then newpkgcb and pkgcb must not both be
None, raising ValueError.  Only when all checks pass is the underlying
cr_xml_parse_* invoked, whose outcome is the parseErr argument. -/
def pyParseValidated (newpkgcb pkgcb warningcb : PyVal)
    (parseErr : Option PyExc) : PyParseOutcome :=
  if pyCallableCheck newpkgcb = false ∧ newpkgcb ≠ PyVal.noneObj then
    ⟨Except.error (PyExc.typeErr "newpkgcb must be callable or None"), false⟩
  else if pyCallableCheck pkgcb = false ∧ pkgcb ≠ PyVal.noneObj then
    ⟨Except.error (PyExc.typeErr "pkgcb must be callable or None"), false⟩
  else if pyCallableCheck warningcb = false ∧ warningcb ≠ PyVal.noneObj then
    ⟨Except.error (PyExc.typeErr "warningcb must be callable or None"), false⟩
  else if newpkgcb = PyVal.noneObj ∧ pkgcb = PyVal.noneObj then
    ⟨Except.error (PyExc.valueErr "both pkgcb and newpkgcb cannot be None"), false⟩
  else
    match parseErr with
    | some e => ⟨Except.error e, true⟩
    | none => ⟨Except.ok (), true⟩

/-- py_xml_parse_primary (xml_parser-py.c lines 138-217); do_files is parsed
from the arguments but plays no role in the validation. -/
def py_xml_parse_primary (newpkgcb pkgcb warningcb : PyVal) (do_files : Bool)
    (parseErr : Option PyExc) : PyParseOutcome :=
  pyParseValidated newpkgcb pkgcb warningcb parseErr

/-- py_xml_parse_filelists (xml_parser-py.c lines 219-295). -/
def py_xml_parse_filelists (newpkgcb pkgcb warningcb : PyVal)
    (parseErr : Option PyExc) : PyParseOutcome :=
  pyParseValidated newpkgcb pkgcb warningcb parseErr

/-- py_xml_parse_other (xml_parser-py.c lines 297-373). -/
def py_xml_parse_other (newpkgcb pkgcb warningcb : PyVal)
    (parseErr : Option PyExc) : PyParseOutcome :=
  pyParseValidated newpkgcb pkgcb warningcb parseErr

/-- A callback argument that is neither callable nor None. -/
def invalidCb (v : PyVal) : Prop :=
  pyCallableCheck v = false ∧ v ≠ PyVal.noneObj

instance (v : PyVal) : Decidable (invalidCb v) := by
  unfold invalidCb
  infer_instance

/-- The outcome is a raised TypeError. -/
def raisedTypeErr (r : PyParseOutcome) : Bool :=
  match r.result with
  | Except.error (PyExc.typeErr _) => true
  | _ => false

/-- The outcome is a raised ValueError. -/
def raisedValueErr (r : PyParseOutcome) : Bool :=
  match r.result with
  | Except.error (PyExc.valueErr _) => true
  | _ => false

/-! ### Concrete sample values used by witnesses and counterexamples -/

/-- A concrete package record. -/
def samplePackage : Package :=
  { name := "a", epoch := "0", version := "1", release := "1", arch := "x86_64",
    pkgId := "deadbeef", checksum_type := "sha256", size_package := 1024,
    time_file := 1111, time_build := 1000,
    provides := [], requires := [], conflicts := [], obsoletes := [],
    suggests := [], enhances := [], recommends := [], supplements := [],
    files := [⟨"/usr/bin/a", FileType.file⟩], changelogs := [],
    location_href := "old/a-1-1.x86_64.rpm", location_base := none }

/-- A user-data record for a run without --update. -/
def noUpdateUserData : UserData :=
  { skip_stat := false, checksum_type_str := "sha256", old_metadata := none,
    location_base := none, repodir_name_len := 6 }

/-- A single-entry old-metadata table. -/
def sampleMetadata : Metadata :=
  [("a-1-1.x86_64.rpm", samplePackage)]

/-- A user-data record for an --update run with the sample table loaded. -/
def updateUserData : UserData :=
  { skip_stat := false, checksum_type_str := "sha256",
    old_metadata := some sampleMetadata,
    location_base := none, repodir_name_len := 6 }

/-- A concrete task. -/
def sampleTask : PoolTask :=
  { full_path := "/repo/a-1-1.x86_64.rpm", filename := "a-1-1.x86_64.rpm",
    path := "/repo" }

/-- External-call outcomes for a task whose package fails to parse. -/
def failParseOracle : FsOracle :=
  { statResult := some ⟨1111, 1024⟩, parseResult := none }

/-- External-call outcomes matching the sample package's cached fingerprint. -/
def matchingOracle : FsOracle :=
  { statResult := some ⟨1111, 1024⟩, parseResult := some samplePackage }

/-! ### Helper lemmas -/

lemma sinkCounts_add (a b : SinkCounts) :
    a + b = ⟨a.pri + b.pri, a.fil + b.fil, a.oth + b.oth⟩ := rfl

lemma runPool_eq_writtenCount (u : UserData) (tasks : List (PoolTask × FsOracle)) :
    runPool u tasks =
      ⟨writtenCount u tasks, writtenCount u tasks, writtenCount u tasks⟩ := by
  induction tasks with
  | nil => simp [runPool, writtenCount]
  | cons p rest ih =>
    by_cases h : dumper_thread u p.1 p.2 = true <;>
      simp [runPool, writtenCount, taskSinkAppends, h, List.filter_cons, ih,
            sinkCounts_add] at * <;>
      simp [Nat.add_comm, ih]

lemma written_add_dropped (u : UserData) (tasks : List (PoolTask × FsOracle)) :
    writtenCount u tasks + droppedCount u tasks = package_count tasks := by
  induction tasks with
  | nil => simp [writtenCount, droppedCount, package_count]
  | cons p rest ih =>
    by_cases h : dumper_thread u p.1 p.2 = true <;>
      simp [writtenCount, droppedCount, package_count, h, List.filter_cons] at * <;>
      omega

lemma htLookup_append (a b : List (String × Package)) (f : String) :
    htLookup (List.append a b) f = Option.or (htLookup b f) (htLookup a f) := by
  have h1 : List.append a b = a ++ b := rfl
  unfold htLookup
  rw [h1, List.reverse_append, List.find?_append]
  cases h : List.find? (fun p => p.1 = f) b.reverse <;>
    simp [h, Option.or]

/-! ### Claim theorems -/

/-- C1 (counterexample): the claim that the packages attribute written in
the preambles equals the number of package elements actually written, even
in runs where a task is dropped, is false: a run over one task whose package
fails to parse writes packages="1" into every preamble but zero package
elements into every document. -/
theorem preamble_overcounts_on_parse_failure :
    package_count [(sampleTask, failParseOracle)] = 1 ∧
    runPool noUpdateUserData [(sampleTask, failParseOracle)] = ⟨0, 0, 0⟩ ∧
    (1 : Nat) ≠ 0 := by
  refine ⟨rfl, ?_, by decide⟩
  decide

/-- C1 (amended): the packages attribute written in the three preambles
equals the number of tasks queued by the walk; every one of the three
documents receives exactly one package element per non-dropped task, so all
three documents agree with each other, and the attribute equals the written
count exactly when no task was dropped for a stat or parse failure. -/
theorem packages_attr_counts_queued_tasks :
    ∀ (u : UserData) (tasks : List (PoolTask × FsOracle)),
      runPool u tasks =
        ⟨writtenCount u tasks, writtenCount u tasks, writtenCount u tasks⟩ ∧
      writtenCount u tasks + droppedCount u tasks = package_count tasks ∧
      (droppedCount u tasks = 0 → writtenCount u tasks = package_count tasks) := by
  intro u tasks
  refine ⟨runPool_eq_writtenCount u tasks, written_add_dropped u tasks, ?_⟩
  intro h
  have := written_add_dropped u tasks
  omega

/-- C1 (witness): the amended statement applied to one parsing task and one
dropped task. -/
theorem packages_attr_counts_queued_tasks_witness :
    writtenCount noUpdateUserData
        [(sampleTask, matchingOracle), (sampleTask, failParseOracle)] = 1 ∧
    package_count
        [(sampleTask, matchingOracle), (sampleTask, failParseOracle)] = 2 := by
  have h := packages_attr_counts_queued_tasks noUpdateUserData
      [(sampleTask, matchingOracle), (sampleTask, failParseOracle)]
  exact ⟨by decide, by decide⟩

/-- C2: for a task whose filename hits the loaded old metadata, skip_stat
uses the cached record unconditionally; otherwise, with the stat call
succeeding, the cached record is used exactly when the stat mtime equals the
record's time_file, the stat size equals its size_package, and the
configured checksum-type string equals its checksum_type; on any mismatch
the package is parsed fresh. -/
theorem cache_hit_validation :
    ∀ (u : UserData) (t : PoolTask) (fs : FsOracle) (meta : Metadata) (m : Package),
      u.old_metadata = some meta →
      htLookup meta t.filename = some m →
      (u.skip_stat = true → dumper_decision u t fs = DumperAction.useCached) ∧
      (∀ s : StatInfo, u.skip_stat = false → fs.statResult = some s →
        dumper_decision u t fs =
          if s.st_mtime = m.time_file ∧ s.st_size = m.size_package ∧
             u.checksum_type_str = m.checksum_type
          then DumperAction.useCached
          else DumperAction.parseFresh) := by
  intro u t fs meta m hmeta hlook
  constructor
  · intro hskip
    simp [dumper_decision, hmeta, hlook, hskip]
  · intro s hskip hstat
    simp [dumper_decision, hmeta, hlook, hskip, hstat]

/-- C2 (witness): a concrete hit under an --update run without skip_stat,
with matching mtime, size and checksum type, resolves to the cached
record. -/
theorem cache_hit_validation_witness :
    dumper_decision updateUserData sampleTask matchingOracle =
      DumperAction.useCached := by
  have h := (cache_hit_validation updateUserData sampleTask matchingOracle
      sampleMetadata samplePackage rfl (by decide)).2 ⟨1111, 1024⟩ rfl rfl
  rw [h]
  decide

/-- C5: when a cached record is used, exactly location_href and
location_base are overwritten with the current run's values; every other
field of the record is unchanged. -/
theorem cache_hit_location_frame :
    ∀ (md : Package) (href : String) (base : Option String),
      (cacheHitRecord md href base).location_href = href ∧
      (cacheHitRecord md href base).location_base = base ∧
      (cacheHitRecord md href base).name = md.name ∧
      (cacheHitRecord md href base).epoch = md.epoch ∧
      (cacheHitRecord md href base).version = md.version ∧
      (cacheHitRecord md href base).release = md.release ∧
      (cacheHitRecord md href base).arch = md.arch ∧
      (cacheHitRecord md href base).pkgId = md.pkgId ∧
      (cacheHitRecord md href base).checksum_type = md.checksum_type ∧
      (cacheHitRecord md href base).size_package = md.size_package ∧
      (cacheHitRecord md href base).time_file = md.time_file ∧
      (cacheHitRecord md href base).time_build = md.time_build ∧
      (cacheHitRecord md href base).provides = md.provides ∧
      (cacheHitRecord md href base).requires = md.requires ∧
      (cacheHitRecord md href base).conflicts = md.conflicts ∧
      (cacheHitRecord md href base).obsoletes = md.obsoletes ∧
      (cacheHitRecord md href base).suggests = md.suggests ∧
      (cacheHitRecord md href base).enhances = md.enhances ∧
      (cacheHitRecord md href base).recommends = md.recommends ∧
      (cacheHitRecord md href base).supplements = md.supplements ∧
      (cacheHitRecord md href base).files = md.files ∧
      (cacheHitRecord md href base).changelogs = md.changelogs := by
  intro md href base
  repeat constructor

/-- C3: in the write phase of a task, with or without the sqlite writers,
the locks are acquired in the fixed order primary, filelists, other; every
acquisition happens while no lock is held (each lock is released before the
next is acquired), and hence at no point during the phase is more than one
lock held. -/
theorem sink_locks_one_at_a_time :
    ∀ withDb : Bool,
      acquisitionOrder (writePhase withDb) = [Lock.pri, Lock.fil, Lock.oth] ∧
      lockAcqWhenFree [] (writePhase withDb) = true ∧
      ∀ n : Nat, (heldAfter ((writePhase withDb).take n)).length ≤ 1 := by
  intro withDb
  cases withDb
  · refine ⟨by decide, by decide, ?_⟩
    intro n
    by_cases h : n ≤ 9
    · interval_cases n <;> decide
    · have hlen : (writePhase false).length ≤ n := by
        have : (writePhase false).length = 9 := by decide
        omega
      rw [List.take_of_length_le hlen]
      decide
  · refine ⟨by decide, by decide, ?_⟩
    intro n
    by_cases h : n ≤ 12
    · interval_cases n <;> decide
    · have hlen : (writePhase true).length ≤ n := by
        have : (writePhase true).length = 12 := by decide
        omega
      rw [List.take_of_length_le hlen]
      decide

/-- C4 (counterexample): the claim that every finalize-phase failure is
fatal with exit status 1 is false: a run in which the staging rename, the
checksum computations and the database compressions all fail, while
repomd.xml is still generated and opened, exits with status 0. -/
theorem rename_failure_not_fatal :
    mainFinalizeExit ⟨false, false, false, true, true⟩ = 0 ∧ (0 : Nat) ≠ 1 := by
  decide

/-- C4 (amended): in the finalize phase only the repomd.xml step is fatal:
main exits 0 exactly when xml_repomd produced a document and the fopen of
repomd.xml succeeded; the outcomes of the staging rename, the checksum
computations and the database compressions are logged at most and never
influence the exit status, and a fully successful run exits 0. -/
theorem finalize_exit_depends_only_on_repomd :
    ∀ e : FinalizeEnv,
      (mainFinalizeExit e = 0 ↔ (e.repomdXmlOk = true ∧ e.repomdOpenOk = true)) ∧
      mainFinalizeExit { e with renameOk := false, checksumOk := false,
                                compressOk := false } = mainFinalizeExit e ∧
      mainFinalizeExit ⟨true, true, true, true, true⟩ = 0 := by
  intro e
  obtain ⟨r, c, z, x, o⟩ := e
  cases x <;> cases o <;> simp [mainFinalizeExit]

/-- C4 (witness): the amended statement applied to an all-successful
finalize, which exits 0. -/
theorem finalize_exit_depends_only_on_repomd_witness :
    mainFinalizeExit ⟨true, true, true, true, true⟩ = 0 :=
  (finalize_exit_depends_only_on_repomd ⟨true, true, true, true, true⟩).2.2

/-- C6: with --update, old metadata is loaded from the output directory
first (only when an output directory is specified), then from the input
directory, then from each --update-md-path in list order; and since a
later-loaded binding for a filename shadows an earlier one, an entry present
in a later source overrides the earlier sources -- in particular
input-directory entries override output-directory entries. -/
theorem old_metadata_load_order :
    ∀ (od in_dir : String) (paths : List String) (m1 m2 : Metadata) (f : String),
      oldMetadataSources (some od) in_dir paths = od :: in_dir :: paths ∧
      oldMetadataSources none in_dir paths = in_dir :: paths ∧
      ((htLookup m2 f).isSome = true →
        htLookup (loadAllSources [m1, m2]) f = htLookup m2 f) := by
  intro od in_dir paths m1 m2 f
  refine ⟨rfl, rfl, ?_⟩
  intro h
  have hrw : loadAllSources [m1, m2] =
      List.append (List.append ([] : List (String × Package)) m1) m2 := rfl
  have hnil : List.append ([] : List (String × Package)) m1 = m1 := rfl
  rw [hrw, hnil, htLookup_append]
  cases hv : htLookup m2 f with
  | none => rw [hv] at h; simp at h
  | some v => simp [Option.or]

/-- C6 (witness): with the output-directory table binding the sample
filename to one record and the input-directory table binding it to another,
the merged table resolves the filename to the input-directory record. -/
theorem old_metadata_load_order_witness :
    htLookup (loadAllSources
        [[("a-1-1.x86_64.rpm", samplePackage)],
         [("a-1-1.x86_64.rpm", cacheHitRecord samplePackage "new/a-1-1.x86_64.rpm" none)]])
      "a-1-1.x86_64.rpm" =
      some (cacheHitRecord samplePackage "new/a-1-1.x86_64.rpm" none) := by
  have h := (old_metadata_load_order "/out/" "/repo/" []
      [("a-1-1.x86_64.rpm", samplePackage)]
      [("a-1-1.x86_64.rpm", cacheHitRecord samplePackage "new/a-1-1.x86_64.rpm" none)]
      "a-1-1.x86_64.rpm").2.2 (by decide)
  rw [h]
  decide

/-- C7: the pool is created with a maximum of zero threads, the walk that
queues every task precedes the preamble writes, which precede the raising of
the worker count, the sinks are opened before the pool even exists; along
every prefix of main's steps the pool's thread budget is zero until the
worker count is raised, and any point at which a task could execute already
has the sinks opened, the walk finished and the preambles written. -/
theorem pool_started_after_preambles :
    poolCreationMaxThreads = 0 ∧
    mainTrace.indexOf MainEvent.openSinks < mainTrace.indexOf MainEvent.createPool ∧
    mainTrace.indexOf MainEvent.createPool < mainTrace.indexOf MainEvent.walkAndQueue ∧
    mainTrace.indexOf MainEvent.walkAndQueue < mainTrace.indexOf MainEvent.writePreambles ∧
    mainTrace.indexOf MainEvent.writePreambles < mainTrace.indexOf MainEvent.startPool ∧
    (∀ (W n : Nat), MainEvent.startPool ∉ mainTrace.take n →
      maxThreadsAfter W (mainTrace.take n) = 0) ∧
    (∀ (W n : Nat), 0 < maxThreadsAfter W (mainTrace.take n) →
      MainEvent.openSinks ∈ mainTrace.take n ∧
      MainEvent.writePreambles ∈ mainTrace.take n ∧
      MainEvent.walkAndQueue ∈ mainTrace.take n) := by
  refine ⟨rfl, by decide, by decide, by decide, by decide, ?_, ?_⟩
  · intro W n hns
    unfold maxThreadsAfter
    rw [if_neg hns]
    rfl
  · intro W n h
    have hsp : MainEvent.startPool ∈ mainTrace.take n := by
      by_contra hns
      unfold maxThreadsAfter at h
      rw [if_neg hns] at h
      exact absurd h (by decide)
    have hn : 11 ≤ n := by
      by_contra hlt
      push_neg at hlt
      interval_cases n <;> exact absurd hsp (by decide)
    have hsub : mainTrace.take 11 ⊆ mainTrace.take n :=
      (List.take_prefix_take_left mainTrace hn).subset
    exact ⟨hsub (by decide), hsub (by decide), hsub (by decide)⟩

/-- C7 (witness): with four workers at the end of main's sequence, tasks can
run and the sinks were opened, the walk finished and the preambles written
beforehand. -/
theorem pool_started_after_preambles_witness :
    MainEvent.openSinks ∈ mainTrace.take 19 ∧
    MainEvent.writePreambles ∈ mainTrace.take 19 ∧
    MainEvent.walkAndQueue ∈ mainTrace.take 19 :=
  pool_started_after_preambles.2.2.2.2.2.2 4 19 (by decide)

/-- C8 (counterexample): the claim that the staging-path cell is cleared as
soon as the rename succeeds, so that an interrupt after a successful swap
never attempts to remove anything, is false: immediately after the
renameStaging step the cell still holds the staging path, and the signal
handler invoked there attempts to remove it. -/
theorem signal_cell_still_set_after_swap :
    MainEvent.renameStaging ∈ mainTrace.take 16 ∧
    (sigint_catcher (cellValueAfter "/out/.repodata/" (mainTrace.take 16))).1 =
      ["/out/.repodata/"] := by
  decide

/-- C8 (amended): the staging-path cell is set in the step immediately after
the staging directory is created, but it is cleared only in the final
cleanup of main, after repomd.xml is written -- not when the rename
succeeds; at every point after the cell is set and before that final
cleanup, including the whole stretch after a successful swap, an interrupt
still attempts to remove the recorded staging path, and only after the
cleanup does the handler remove nothing. -/
theorem signal_cell_lifecycle :
    mainTrace.indexOf MainEvent.setSignalCell =
      mainTrace.indexOf MainEvent.mkdirStaging + 1 ∧
    mainTrace.indexOf MainEvent.renameStaging <
      mainTrace.indexOf MainEvent.writeRepomd ∧
    mainTrace.indexOf MainEvent.writeRepomd <
      mainTrace.indexOf MainEvent.clearSignalCell ∧
    (∀ (p : String) (n : Nat),
      MainEvent.setSignalCell ∈ mainTrace.take n →
      MainEvent.clearSignalCell ∉ mainTrace.take n →
      (sigint_catcher (cellValueAfter p (mainTrace.take n))).1 = [p]) ∧
    (∀ p : String, cellValueAfter p mainTrace = none ∧
      (sigint_catcher (cellValueAfter p mainTrace)).1 = []) := by
  refine ⟨by decide, by decide, by decide, ?_, ?_⟩
  · intro p n hset hclear
    unfold cellValueAfter
    rw [if_pos ⟨hset, hclear⟩]
    rfl
  · intro p
    have hmem : MainEvent.clearSignalCell ∈ mainTrace := by decide
    constructor
    · unfold cellValueAfter
      rw [if_neg (fun hc => hc.2 hmem)]
    · unfold cellValueAfter
      rw [if_neg (fun hc => hc.2 hmem)]
      rfl

/-- C8 (witness): the amended lifecycle applied right after the successful
swap: the cell is set, not yet cleared, and the handler attempts to remove
the staging path. -/
theorem signal_cell_lifecycle_witness :
    (sigint_catcher (cellValueAfter "/out/.repodata/" (mainTrace.take 17))).1 =
      ["/out/.repodata/"] :=
  signal_cell_lifecycle.2.2.2.1 "/out/.repodata/" 17 (by decide) (by decide)

/-- C9 (counterexample): the claim that with skip-symlinks every symlink
entry is skipped and a symlink to a directory is never enqueued is false:
the symlink test runs only after the .rpm-suffix test, so a symlink to a
directory whose name lacks the .rpm suffix is enqueued for traversal. -/
theorem symlink_dir_enqueued_despite_skip :
    (DirEntry.mk "subdir" false true true).isSymlink = true ∧
    (DirEntry.mk "subdir" false true true).isDir = true ∧
    walkStep true true (DirEntry.mk "subdir" false true true) =
      WalkAction.enqueueDir ∧
    WalkAction.enqueueDir ≠ WalkAction.skipEntry := by
  refine ⟨rfl, rfl, ?_, by decide⟩
  decide

/-- C9 (amended): with skip-symlinks on, a symlink whose name ends in .rpm
is skipped (it yields no PackageTask); but the symlink check applies only to
entries that pass the .rpm-suffix check, so a directory entry that is a
symlink resolving to a directory, with a name not ending in .rpm, is still
enqueued for traversal. -/
theorem skip_symlinks_only_for_rpm_names :
    ∀ (allowed : Bool) (e : DirEntry),
      (e.isSymlink = true → g_str_has_suffix e.name ".rpm" = true →
        walkStep true allowed e = WalkAction.skipEntry) ∧
      (g_str_has_suffix e.name ".rpm" = false → e.isRegular = false → e.isDir = true →
        walkStep true allowed e = WalkAction.enqueueDir) := by
  intro allowed e
  constructor
  · intro hsym hrpm
    simp [walkStep, hrpm, hsym]
  · intro hrpm hreg hdir
    simp [walkStep, hrpm, hreg, hdir]

/-- C9 (witness): the amended statement applied to a .rpm-named symlink,
which is skipped. -/
theorem skip_symlinks_only_for_rpm_names_witness :
    walkStep true true (DirEntry.mk "a-1-1.x86_64.rpm" true false true) =
      WalkAction.skipEntry :=
  (skip_symlinks_only_for_rpm_names true
      (DirEntry.mk "a-1-1.x86_64.rpm" true false true)).1 rfl (by decide)

/-- C10: each of the three Python XML-parse entry points raises a TypeError
without invoking the underlying parser when any of newpkgcb, pkgcb or
warningcb is neither callable nor None, and raises a ValueError without
invoking the parser when the callbacks are individually acceptable but
newpkgcb and pkgcb are both None. -/
theorem py_parse_rejects_bad_callbacks :
    ∀ (n p w : PyVal) (df : Bool) (pe : Option PyExc),
      ((invalidCb n ∨ invalidCb p ∨ invalidCb w) →
        raisedTypeErr (py_xml_parse_primary n p w df pe) = true ∧
        (py_xml_parse_primary n p w df pe).parserInvoked = false ∧
        raisedTypeErr (py_xml_parse_filelists n p w pe) = true ∧
        (py_xml_parse_filelists n p w pe).parserInvoked = false ∧
        raisedTypeErr (py_xml_parse_other n p w pe) = true ∧
        (py_xml_parse_other n p w pe).parserInvoked = false) ∧
      ((¬ invalidCb n ∧ ¬ invalidCb p ∧ ¬ invalidCb w ∧
          n = PyVal.noneObj ∧ p = PyVal.noneObj) →
        raisedValueErr (py_xml_parse_primary n p w df pe) = true ∧
        (py_xml_parse_primary n p w df pe).parserInvoked = false ∧
        raisedValueErr (py_xml_parse_filelists n p w pe) = true ∧
        (py_xml_parse_filelists n p w pe).parserInvoked = false ∧
        raisedValueErr (py_xml_parse_other n p w pe) = true ∧
        (py_xml_parse_other n p w pe).parserInvoked = false) := by
  intro n p w df pe
  constructor <;>
    intro h <;>
    cases n <;> cases p <;> cases w <;>
    first
      | exact ⟨rfl, rfl, rfl, rfl, rfl, rfl⟩
      | exact absurd h (by decide)

/-- C10 (witness): a non-callable, non-None newpkgcb makes all three entry
points raise a TypeError without touching the parser. -/
theorem py_parse_rejects_bad_callbacks_witness :
    raisedTypeErr (py_xml_parse_primary PyVal.otherObj PyVal.callable
        PyVal.callable true none) = true ∧
    (py_xml_parse_primary PyVal.otherObj PyVal.callable PyVal.callable
        true none).parserInvoked = false ∧
    raisedTypeErr (py_xml_parse_filelists PyVal.otherObj PyVal.callable
        PyVal.callable none) = true ∧
    (py_xml_parse_filelists PyVal.otherObj PyVal.callable PyVal.callable
        none).parserInvoked = false ∧
    raisedTypeErr (py_xml_parse_other PyVal.otherObj PyVal.callable
        PyVal.callable none) = true ∧
    (py_xml_parse_other PyVal.otherObj PyVal.callable PyVal.callable
        none).parserInvoked = false :=
  (py_parse_rejects_bad_callbacks PyVal.otherObj PyVal.callable PyVal.callable
      true none).1 (Or.inl (by decide))

end CreaterepoC
